import Mathlib

/-!
Verification of the TODO mutation-and-audit subsystem of `mvult/secretary`.

The development shallowly embeds the two handler surfaces of the backend:
the ConnectRPC surface (`backend/internal/server/server.go`) and the legacy
plain-HTTP/JSON surface (the unnamed `package server` file with
`handleCreateTodo` etc.), together with the SQL store semantics
(`backend/sql/schema.sql`, the sqlc query file).

The relational store is a `DB` record of row lists.  Each handler is a pure
function from a request and a `DB` to a result and a new `DB`; the
transactional protocol of the Go code (begin / statements / commit, with a
deferred rollback) is mirrored by returning the original `DB` unchanged on
every error path and the fully-applied state only on the commit path.
Transient store failures (connection errors, statement failures, commit
failures) are injected through an explicit oracle `fail : Nat → Bool` that
says whether the k-th database interaction of the invocation fails, so that
atomicity statements quantify over every failure pattern.

Machine integers (`int32`/`int64`) are modelled as `Int`; no claim in scope
depends on overflow.  `pgtype` nullable columns are modelled as `Option`.
The row-scanning layer of the database driver is abstracted: reading a
nullable column into a Go `string`/`int64` destination is modelled with the
zero-value default.
-/

deriving instance DecidableEq for Except

namespace Secretary

/-- Codes of the generated protobuf enum `TodoStatus`
(`TODO_STATUS_UNSPECIFIED = 0`, `TODO_STATUS_NOT_STARTED = 1`,
`TODO_STATUS_PARTIAL = 2`, `TODO_STATUS_DONE = 3`, `TODO_STATUS_BLOCKED = 4`,
`TODO_STATUS_SKIPPED = 5`); protobuf enums are open, so the type is `Int`. -/
def TODO_STATUS_UNSPECIFIED : Int := 0

def TODO_STATUS_NOT_STARTED : Int := 1

def TODO_STATUS_PARTIAL : Int := 2

def TODO_STATUS_DONE : Int := 3

def TODO_STATUS_BLOCKED : Int := 4

def TODO_STATUS_SKIPPED : Int := 5

/-- Whitespace test of Go's `strings.TrimSpace` (ASCII range; every token in
scope is ASCII). -/
def isSpaceChar (c : Char) : Bool :=
  c == ' ' || c == '\t' || c == '\n' || c == '\r'

/-- Go's `strings.TrimSpace`: strip leading and trailing whitespace. -/
def trimSpace (s : String) : String :=
  ⟨((s.data.dropWhile isSpaceChar).reverse.dropWhile isSpaceChar).reverse⟩

/-- Go's `strings.ToLower` on one character (ASCII range). -/
def toLowerChar (c : Char) : Char :=
  if 65 ≤ c.toNat && c.toNat ≤ 90 then Char.ofNat (c.toNat + 32) else c

/-- Go's `strings.ToLower`: lowercase every character. -/
def toLowerStr (s : String) : String :=
  ⟨s.data.map toLowerChar⟩

/-- `validStatus` (server.go): membership of the canonical status set. -/
def validStatus (status : String) : Bool :=
  status == "not_started" || status == "partial" || status == "done" ||
    status == "blocked" || status == "skipped"

/-- `validateTodoInput` (server.go): returns the error message of the first
failing check, or `none` when the input is valid. -/
def validateTodoInput (name status : String) : Option String :=
  if trimSpace name == "" then some "name is required"
  else if status == "" then some "status is required"
  else if !(validStatus status) then some "invalid status"
  else none

/-- `mapStatus` (server.go): read/display mapping from a stored status string
to a `TodoStatus` code, after lowercasing and trimming. -/
def mapStatus (status : String) : Int :=
  let s := toLowerStr (trimSpace status)
  if s == "not_started" || s == "pending" then TODO_STATUS_PARTIAL
  else if s == "partial" || s == "in_progress" || s == "in progress" then TODO_STATUS_PARTIAL
  else if s == "done" || s == "completed" then TODO_STATUS_DONE
  else if s == "blocked" then TODO_STATUS_BLOCKED
  else if s == "skipped" then TODO_STATUS_SKIPPED
  else TODO_STATUS_UNSPECIFIED

/-- `mapStatusToString` (server.go): write-path conversion of a `TodoStatus`
code to the stored string; every non-canonical code becomes `""`. -/
def mapStatusToString (status : Int) : String :=
  if status == TODO_STATUS_NOT_STARTED then "not_started"
  else if status == TODO_STATUS_PARTIAL then "partial"
  else if status == TODO_STATUS_DONE then "done"
  else if status == TODO_STATUS_BLOCKED then "blocked"
  else if status == TODO_STATUS_SKIPPED then "skipped"
  else ""

/-- `nullInt` (plain-HTTP surface): sentinel-zero int64 to SQL-null encoding. -/
def nullInt (v : Int) : Option Int :=
  if v == 0 then none else some v

/-- A row of the `todo` table (schema.sql): `desc`, `status`, `user_id` and
both recording references are nullable. -/
structure TodoRow where
  id : Int
  name : String
  desc : Option String
  status : Option String
  userId : Option Int
  createdAtRecordingId : Option Int
  updatedAtRecordingId : Option Int
  deriving DecidableEq, Repr

/-- A row of the `todo_history` table (schema.sql); `changed_at` is the
server-assigned timestamp `now()`. -/
structure TodoHistoryRow where
  id : Int
  todoId : Int
  actorUserId : Option Int
  changeType : String
  name : Option String
  desc : Option String
  status : Option String
  userId : Option Int
  createdAtRecordingId : Option Int
  updatedAtRecordingId : Option Int
  changedAt : Int
  deriving DecidableEq, Repr

/-- A row of the `user` table (schema.sql). -/
structure UserRow where
  id : Int
  firstName : String
  lastName : Option String
  role : Option String
  email : Option String
  passwordHash : Option String
  deriving DecidableEq, Repr

/-- The relational store.  `nextTodoId` / `nextHistoryId` are the identity
generators, `now` the clock used for `changed_at`. -/
structure DB where
  users : List UserRow
  todos : List TodoRow
  history : List TodoHistoryRow
  nextTodoId : Int
  nextHistoryId : Int
  now : Int
  deriving DecidableEq, Repr

/-- Row lookup by primary key (`WHERE id = $1` on `todo`). -/
def findTodo (db : DB) (id : Int) : Option TodoRow :=
  db.todos.find? (fun t => t.id == id)

/-- Row lookup by primary key (`WHERE id = $1` on `"user"`). -/
def findUser (db : DB) (id : Int) : Option UserRow :=
  db.users.find? (fun u => u.id == id)

/-- `DELETE FROM todo WHERE id = $1`, together with the schema's
`todo_history_todo_fk ... ON DELETE CASCADE` (schema.sql): deleting a todo
row also removes every `todo_history` row referencing it. -/
def deleteTodoCascade (db : DB) (id : Int) : DB :=
  { db with
    todos := db.todos.filter (fun t => !(t.id == id)),
    history := db.history.filter (fun h => !(h.todoId == id)) }

/-- ConnectRPC error codes used by the todo handlers (server.go). -/
inductive ConnectErr where
  | invalidArgument : String → ConnectErr
  | notFound : String → ConnectErr
  | permissionDenied : String → ConnectErr
  | unauthenticated : String → ConnectErr
  | internal : String → ConnectErr
  deriving DecidableEq, Repr

/-- Request message of `TodosService.CreateTodo` (`secretaryv1.CreateTodoRequest`).
Protobuf scalar fields default to `0`/`""` when unset.
Modelled from the spec: the `actor_user_id` field — the generated protobuf
package `backend/gen/secretary/v1` is not among the sources; §6 of the spec
gives the operation signature
`CreateTodo(name, desc, status, ownerUserId, createdRecordingId?, updatedRecordingId?, actorUserId?)`.
The handler in server.go never reads this field. -/
structure CreateTodoRequest where
  name : String
  desc : String
  status : Int
  userId : Int
  createdAtRecordingId : Int
  updatedAtRecordingId : Int
  actorUserId : Int
  deriving DecidableEq, Repr

/-- Request message of `TodosService.UpdateTodo`; `actorUserId` is modelled
from the spec exactly as for `CreateTodoRequest`. -/
structure UpdateTodoRequest where
  id : Int
  name : String
  desc : String
  status : Int
  userId : Int
  updatedAtRecordingId : Int
  actorUserId : Int
  deriving DecidableEq, Repr

/-- Request message of `TodosService.DeleteTodo`; `actorUserId` is modelled
from the spec exactly as for `CreateTodoRequest`. -/
structure DeleteTodoRequest where
  id : Int
  actorUserId : Int
  deriving DecidableEq, Repr

/-- The `secretaryv1.Todo` response message.  The two recording references
are assigned only when the stored column is non-null (`if row.X.Valid`), so
they are modelled with `Option` (presence), all other fields with their
pgtype zero-value defaults. -/
structure TodoMsg where
  id : Int
  name : String
  desc : String
  status : Int
  userId : Int
  createdAtRecordingId : Option Int
  updatedAtRecordingId : Option Int
  deriving DecidableEq, Repr

/-- The `secretaryv1.TodoHistory` response message; `actorUserId` and the
recording references are assigned only when non-null. -/
structure TodoHistoryMsg where
  id : Int
  todoId : Int
  changeType : String
  name : String
  desc : String
  status : Int
  userId : Int
  changedAt : Int
  actorUserId : Option Int
  createdAtRecordingId : Option Int
  updatedAtRecordingId : Option Int
  deriving DecidableEq, Repr

/-- Response assembly shared by the todo read and mutation handlers
(server.go): the stored status string is display-mapped with `mapStatus`. -/
def todoRowToMsg (row : TodoRow) : TodoMsg :=
  { id := row.id
    name := row.name
    desc := row.desc.getD ""
    status := mapStatus (row.status.getD "")
    userId := row.userId.getD 0
    createdAtRecordingId := row.createdAtRecordingId
    updatedAtRecordingId := row.updatedAtRecordingId }

/-- Response assembly of `ListTodoHistory` (server.go). -/
def historyRowToMsg (row : TodoHistoryRow) : TodoHistoryMsg :=
  { id := row.id
    todoId := row.todoId
    changeType := row.changeType
    name := row.name.getD ""
    desc := row.desc.getD ""
    status := mapStatus (row.status.getD "")
    userId := row.userId.getD 0
    changedAt := row.changedAt
    actorUserId := row.actorUserId
    createdAtRecordingId := row.createdAtRecordingId
    updatedAtRecordingId := row.updatedAtRecordingId }

/-- The `todo` row inserted by the RPC `CreateTodo` handler
(`db.CreateTodoParams` in server.go): `desc` is null iff the request string
is empty, each recording reference is null iff the request value is `0`. -/
def createTodoRowOf (msg : CreateTodoRequest) (db : DB) : TodoRow :=
  { id := db.nextTodoId
    name := msg.name
    desc := if msg.desc != "" then some msg.desc else none
    status := some (mapStatusToString msg.status)
    userId := some msg.userId
    createdAtRecordingId :=
      if msg.createdAtRecordingId != 0 then some msg.createdAtRecordingId else none
    updatedAtRecordingId :=
      if msg.updatedAtRecordingId != 0 then some msg.updatedAtRecordingId else none }

/-- The `todo_history` row built by the RPC handlers
(`db.CreateTodoHistoryParams` in server.go): a full snapshot of the given
todo row, with an always-valid actor column and the server clock. -/
def createHistoryRowOf (row : TodoRow) (actorId : Int) (changeType : String) (db : DB) :
    TodoHistoryRow :=
  { id := db.nextHistoryId
    todoId := row.id
    actorUserId := some actorId
    changeType := changeType
    name := some row.name
    desc := row.desc
    status := row.status
    userId := row.userId
    createdAtRecordingId := row.createdAtRecordingId
    updatedAtRecordingId := row.updatedAtRecordingId
    changedAt := db.now }

/-- `(*Server).CreateTodo` (server.go).  Database interactions, in order:
`fail 0` = `BeginTx`, `fail 1` = the `CreateTodo` insert, `fail 2` = the
`CreateTodoHistory` insert, `fail 3` = `Commit`.  The actor of the history
row is always the owner (`actorID := msg.UserId`). -/
def CreateTodo (fail : Nat → Bool) (msg : CreateTodoRequest) (db : DB) :
    Except ConnectErr TodoMsg × DB :=
  match validateTodoInput msg.name (mapStatusToString msg.status) with
  | some e => (Except.error (ConnectErr.invalidArgument e), db)
  | none =>
    if msg.userId == 0 then
      (Except.error (ConnectErr.invalidArgument "user_id is required"), db)
    else if fail 0 then
      (Except.error (ConnectErr.internal "failed to start transaction"), db)
    else
      let row := createTodoRowOf msg db
      if fail 1 then (Except.error (ConnectErr.internal "failed to create todo"), db)
      else
        let h := createHistoryRowOf row msg.userId "create" db
        if fail 2 then
          (Except.error (ConnectErr.internal "failed to create todo history"), db)
        else if fail 3 then
          (Except.error (ConnectErr.internal "failed to commit todo"), db)
        else
          (Except.ok (todoRowToMsg row),
            { db with
              todos := db.todos ++ [row]
              history := db.history ++ [h]
              nextTodoId := db.nextTodoId + 1
              nextHistoryId := db.nextHistoryId + 1 })

/-- The `todo` row produced by the `UpdateTodo` statement (query file): all
mutable columns replaced wholesale, `created_at_recording_id` untouched,
`updated_at_recording_id` overwritten with null when the request value is 0. -/
def updateTodoRowOf (msg : UpdateTodoRequest) (t0 : TodoRow) : TodoRow :=
  { id := t0.id
    name := msg.name
    desc := if msg.desc != "" then some msg.desc else none
    status := some (mapStatusToString msg.status)
    userId := some msg.userId
    createdAtRecordingId := t0.createdAtRecordingId
    updatedAtRecordingId :=
      if msg.updatedAtRecordingId != 0 then some msg.updatedAtRecordingId else none }

/-- `(*Server).UpdateTodo` (server.go).  `fail 0` = `BeginTx`, `fail 1` = the
`UpdateTodo` statement, `fail 2` = the history insert, `fail 3` = `Commit`;
a target id matching no row is `pgx.ErrNoRows` → `CodeNotFound`. -/
def UpdateTodo (fail : Nat → Bool) (msg : UpdateTodoRequest) (db : DB) :
    Except ConnectErr TodoMsg × DB :=
  match validateTodoInput msg.name (mapStatusToString msg.status) with
  | some e => (Except.error (ConnectErr.invalidArgument e), db)
  | none =>
    if msg.userId == 0 then
      (Except.error (ConnectErr.invalidArgument "user_id is required"), db)
    else if fail 0 then
      (Except.error (ConnectErr.internal "failed to start transaction"), db)
    else if fail 1 then
      (Except.error (ConnectErr.internal "failed to update todo"), db)
    else
      match findTodo db msg.id with
      | none => (Except.error (ConnectErr.notFound "todo not found"), db)
      | some t0 =>
        let row := updateTodoRowOf msg t0
        let h := createHistoryRowOf row msg.userId "update" db
        if fail 2 then
          (Except.error (ConnectErr.internal "failed to update todo history"), db)
        else if fail 3 then
          (Except.error (ConnectErr.internal "failed to commit todo"), db)
        else
          (Except.ok (todoRowToMsg row),
            { db with
              todos := db.todos.map (fun t => if t.id == msg.id then row else t)
              history := db.history ++ [h]
              nextHistoryId := db.nextHistoryId + 1 })

/-- `(*Server).DeleteTodo` (server.go).  The caller identity comes from the
auth middleware context; the handler fetches the user and requires role
`"admin"`.  `fail 0` = `BeginTx`, `fail 1` = the `GetTodo` select, `fail 2`
= the history insert, `fail 3` = the `DeleteTodo` statement, `fail 4` =
`Commit`.  The delete statement cascades over `todo_history`. -/
def DeleteTodo (fail : Nat → Bool) (ctxUserId : Option Int) (msg : DeleteTodoRequest)
    (db : DB) : Except ConnectErr Unit × DB :=
  match ctxUserId with
  | none => (Except.error (ConnectErr.unauthenticated "unauthenticated"), db)
  | some uid =>
    match findUser db uid with
    | none => (Except.error (ConnectErr.internal "failed to fetch user"), db)
    | some user =>
      if user.role.getD "" != "admin" then
        (Except.error (ConnectErr.permissionDenied "only admins can delete todos"), db)
      else if fail 0 then
        (Except.error (ConnectErr.internal "failed to start transaction"), db)
      else if fail 1 then
        (Except.error (ConnectErr.internal "failed to delete todo"), db)
      else
        match findTodo db msg.id with
        | none => (Except.error (ConnectErr.notFound "todo not found"), db)
        | some t0 =>
          let h := createHistoryRowOf t0 (t0.userId.getD 0) "delete" db
          if fail 2 then
            (Except.error (ConnectErr.internal "failed to delete todo history"), db)
          else if fail 3 then
            (Except.error (ConnectErr.internal "failed to delete todo"), db)
          else if fail 4 then
            (Except.error (ConnectErr.internal "failed to commit delete"), db)
          else
            (Except.ok (),
              deleteTodoCascade
                { db with
                  history := db.history ++ [h]
                  nextHistoryId := db.nextHistoryId + 1 }
                msg.id)

/-- `(*Server).GetTodo` (server.go); `fail 0` = the select. -/
def GetTodo (fail : Nat → Bool) (id : Int) (db : DB) : Except ConnectErr TodoMsg × DB :=
  if fail 0 then (Except.error (ConnectErr.internal "failed to fetch todo"), db)
  else
    match findTodo db id with
    | none => (Except.error (ConnectErr.notFound "todo not found"), db)
    | some row => (Except.ok (todoRowToMsg row), db)

/-- Descending sort by an integer key, realising a SQL `ORDER BY key DESC`. -/
def sortDescBy (key : α → Int) (l : List α) : List α :=
  l.insertionSort (fun a b => key b ≤ key a)

namespace Queries

/-- `ListTodosByUser` (query file): `WHERE t.user_id = $1 ORDER BY t.id DESC`. -/
def ListTodosByUser (db : DB) (uid : Int) : List TodoRow :=
  sortDescBy (fun t => t.id) (db.todos.filter (fun t => t.userId == some uid))

/-- `ListTodoHistory` (query file):
`WHERE h.todo_id = $1 ORDER BY h.changed_at DESC`. -/
def ListTodoHistory (db : DB) (todoId : Int) : List TodoHistoryRow :=
  sortDescBy (fun h => h.changedAt) (db.history.filter (fun h => h.todoId == todoId))

end Queries

/-- `(*Server).ListTodoHistory` (server.go); `fail 0` = the select. -/
def ListTodoHistory (fail : Nat → Bool) (todoId : Int) (db : DB) :
    Except ConnectErr (List TodoHistoryMsg) × DB :=
  if fail 0 then (Except.error (ConnectErr.internal "failed to list todo history"), db)
  else (Except.ok ((Queries.ListTodoHistory db todoId).map historyRowToMsg), db)

end Secretary

namespace Secretary.Plain

/-! The legacy plain-HTTP/JSON surface (`package server`, the variant with
`handleCreateTodo`/`handleUpdateTodo`/`handleDeleteTodo`).  Statuses travel
as raw strings and optional references as sentinel-zero `int64` converted by
`nullInt` at the store boundary.  The auth middleware of this surface only
verifies the bearer token; no caller identity or role reaches the handlers. -/

/-- HTTP error responses of the plain surface (`writeError`). -/
inductive HErr where
  | badRequest : String → HErr
  | notFoundErr : String → HErr
  | internalErr : String → HErr
  deriving DecidableEq, Repr

/-- `CreateTodoRequest` (plain surface JSON body). -/
structure CreateTodoReq where
  name : String
  desc : String
  status : String
  userId : Int
  createdAtRecordingId : Int
  updatedAtRecordingId : Int
  actorUserId : Int
  deriving DecidableEq, Repr

/-- `UpdateTodoRequest` (plain surface JSON body). -/
structure UpdateTodoReq where
  name : String
  desc : String
  status : String
  userId : Int
  updatedAtRecordingId : Int
  actorUserId : Int
  deriving DecidableEq, Repr

/-- `DeleteTodoRequest` (plain surface JSON body). -/
structure DeleteTodoReq where
  actorUserId : Int
  deriving DecidableEq, Repr

/-- The plain surface `Todo` response struct: nullable columns scanned into
Go `string`/`int64` destinations are modelled with their zero values. -/
structure Todo where
  id : Int
  name : String
  desc : String
  status : String
  userId : Int
  createdAtRecordingId : Int
  updatedAtRecordingId : Int
  deriving DecidableEq, Repr

/-- Scanning a stored row into the plain `Todo` struct. -/
def rowToTodo (row : TodoRow) : Todo :=
  { id := row.id
    name := row.name
    desc := row.desc.getD ""
    status := row.status.getD ""
    userId := row.userId.getD 0
    createdAtRecordingId := row.createdAtRecordingId.getD 0
    updatedAtRecordingId := row.updatedAtRecordingId.getD 0 }

/-- The `todo` row inserted by the plain `handleCreateTodo`: `desc` and
`status` are plain strings (never null), references go through `nullInt`. -/
def createTodoRowOf (req : CreateTodoReq) (db : DB) : TodoRow :=
  { id := db.nextTodoId
    name := req.name
    desc := some req.desc
    status := some req.status
    userId := some req.userId
    createdAtRecordingId := nullInt req.createdAtRecordingId
    updatedAtRecordingId := nullInt req.updatedAtRecordingId }

/-- The `todo_history` row inserted by the plain handlers: snapshot of the
given row, actor column through `nullInt`. -/
def historyRowOf (row : TodoRow) (actorId : Int) (changeType : String) (db : DB) :
    TodoHistoryRow :=
  { id := db.nextHistoryId
    todoId := row.id
    actorUserId := nullInt actorId
    changeType := changeType
    name := some row.name
    desc := row.desc
    status := row.status
    userId := row.userId
    createdAtRecordingId := row.createdAtRecordingId
    updatedAtRecordingId := row.updatedAtRecordingId
    changedAt := db.now }

/-- `(*Server).handleCreateTodo` (plain surface).  `fail 0` = `BeginTx`,
`fail 1` = the insert, `fail 2` = the history insert, `fail 3` = `Commit`.
The actor is the explicitly supplied `actor_user_id`, defaulting to the
owner when it is `0`. -/
def handleCreateTodo (fail : Nat → Bool) (req : CreateTodoReq) (db : DB) :
    Except HErr Todo × DB :=
  match validateTodoInput req.name req.status with
  | some e => (Except.error (HErr.badRequest e), db)
  | none =>
    if req.userId == 0 then (Except.error (HErr.badRequest "user_id is required"), db)
    else if fail 0 then
      (Except.error (HErr.internalErr "failed to start transaction"), db)
    else
      let row := createTodoRowOf req db
      if fail 1 then (Except.error (HErr.internalErr "failed to create todo"), db)
      else
        let actorId := if req.actorUserId == 0 then req.userId else req.actorUserId
        let h := historyRowOf row actorId "create" db
        if fail 2 then
          (Except.error (HErr.internalErr "failed to create todo history"), db)
        else if fail 3 then
          (Except.error (HErr.internalErr "failed to commit todo"), db)
        else
          (Except.ok (rowToTodo row),
            { db with
              todos := db.todos ++ [row]
              history := db.history ++ [h]
              nextTodoId := db.nextTodoId + 1
              nextHistoryId := db.nextHistoryId + 1 })

/-- The `todo` row produced by the plain `UPDATE` statement. -/
def updateTodoRowOf (req : UpdateTodoReq) (t0 : TodoRow) : TodoRow :=
  { id := t0.id
    name := req.name
    desc := some req.desc
    status := some req.status
    userId := some req.userId
    createdAtRecordingId := t0.createdAtRecordingId
    updatedAtRecordingId := nullInt req.updatedAtRecordingId }

/-- `(*Server).handleUpdateTodo` (plain surface).  `fail 0` = `BeginTx`,
`fail 1` = the update statement, `fail 2` = the history insert, `fail 3` =
`Commit`. -/
def handleUpdateTodo (fail : Nat → Bool) (id : Int) (req : UpdateTodoReq) (db : DB) :
    Except HErr Todo × DB :=
  match validateTodoInput req.name req.status with
  | some e => (Except.error (HErr.badRequest e), db)
  | none =>
    if req.userId == 0 then (Except.error (HErr.badRequest "user_id is required"), db)
    else if fail 0 then
      (Except.error (HErr.internalErr "failed to start transaction"), db)
    else if fail 1 then
      (Except.error (HErr.internalErr "failed to update todo"), db)
    else
      match findTodo db id with
      | none => (Except.error (HErr.notFoundErr "todo not found"), db)
      | some t0 =>
        let row := updateTodoRowOf req t0
        let actorId := if req.actorUserId == 0 then req.userId else req.actorUserId
        let h := historyRowOf row actorId "update" db
        if fail 2 then
          (Except.error (HErr.internalErr "failed to update todo history"), db)
        else if fail 3 then
          (Except.error (HErr.internalErr "failed to commit todo"), db)
        else
          (Except.ok (rowToTodo row),
            { db with
              todos := db.todos.map (fun t => if t.id == id then row else t)
              history := db.history ++ [h]
              nextHistoryId := db.nextHistoryId + 1 })

/-- `(*Server).handleDeleteTodo` (plain surface).  No identity or role is
consulted (the middleware only verified the bearer token).  `fail 0` =
`BeginTx`, `fail 1` = the select, `fail 2` = the history insert, `fail 3` =
the delete statement, `fail 4` = `Commit`.  The actor is the explicitly
supplied `actor_user_id`, defaulting to the pre-delete owner when `0`. -/
def handleDeleteTodo (fail : Nat → Bool) (id : Int) (req : DeleteTodoReq) (db : DB) :
    Except HErr Unit × DB :=
  if fail 0 then (Except.error (HErr.internalErr "failed to start transaction"), db)
  else if fail 1 then (Except.error (HErr.internalErr "failed to delete todo"), db)
  else
    match findTodo db id with
    | none => (Except.error (HErr.notFoundErr "todo not found"), db)
    | some t0 =>
      let actorId := if req.actorUserId == 0 then t0.userId.getD 0 else req.actorUserId
      let h := historyRowOf t0 actorId "delete" db
      if fail 2 then
        (Except.error (HErr.internalErr "failed to delete todo history"), db)
      else if fail 3 then
        (Except.error (HErr.internalErr "failed to delete todo"), db)
      else if fail 4 then
        (Except.error (HErr.internalErr "failed to commit delete"), db)
      else
        (Except.ok (),
          deleteTodoCascade
            { db with
              history := db.history ++ [h]
              nextHistoryId := db.nextHistoryId + 1 }
            id)

end Secretary.Plain

namespace Secretary

/-! ### Concrete fixtures used to evaluate the embedding on closed inputs -/

/-- The failure oracle of a run with no transient store failure. -/
def noFail : Nat → Bool := fun _ => false

/-- The failure oracle of a run whose first store interaction fails. -/
def allFail : Nat → Bool := fun _ => true

/-- Fixture: an admin user. -/
def adminUser : UserRow :=
  { id := 1, firstName := "A", lastName := none, role := some "admin",
    email := none, passwordHash := none }

/-- Fixture: a non-admin user (role `"tester"`, as in the repository tests). -/
def testerUser : UserRow :=
  { id := 2, firstName := "T", lastName := none, role := some "tester",
    email := none, passwordHash := none }

/-- Fixture: a stored todo owned by the non-admin user. -/
def todo5 : TodoRow :=
  { id := 5, name := "Test todo", desc := some "Test desc", status := some "done",
    userId := some 2, createdAtRecordingId := some 4, updatedAtRecordingId := some 4 }

/-- Fixture: the create-history row of `todo5`. -/
def hist1 : TodoHistoryRow :=
  { id := 1, todoId := 5, actorUserId := some 2, changeType := "create",
    name := some "Test todo", desc := some "Test desc", status := some "done",
    userId := some 2, createdAtRecordingId := some 4, updatedAtRecordingId := some 4,
    changedAt := 50 }

/-- Fixture: a store with one admin, one non-admin, one todo and its history. -/
def wdb : DB :=
  { users := [adminUser, testerUser], todos := [todo5], history := [hist1],
    nextTodoId := 6, nextHistoryId := 2, now := 100 }

/-- Fixture: the same store with no admin user at all. -/
def wdbNoAdmin : DB :=
  { users := [testerUser], todos := [todo5], history := [hist1],
    nextTodoId := 6, nextHistoryId := 2, now := 100 }

/-! ### Inversion and execution lemmas for the handler embeddings -/

/-- A successful RPC `CreateTodo` returns the freshly inserted row and commits
exactly the insert and its history append. -/
lemma createTodo_ok_inv (fail : Nat → Bool) (msg : CreateTodoRequest) (db : DB)
    (out : TodoMsg) (db' : DB) (h : CreateTodo fail msg db = (Except.ok out, db')) :
    out = todoRowToMsg (createTodoRowOf msg db) ∧
    db' = { db with
      todos := db.todos ++ [createTodoRowOf msg db]
      history := db.history ++ [createHistoryRowOf (createTodoRowOf msg db) msg.userId "create" db]
      nextTodoId := db.nextTodoId + 1
      nextHistoryId := db.nextHistoryId + 1 } := by
  unfold CreateTodo at h
  repeat' split at h
  all_goals simp_all [Prod.ext_iff]

/-- A failed RPC `CreateTodo` leaves the store untouched. -/
lemma createTodo_err_inv (fail : Nat → Bool) (msg : CreateTodoRequest) (db : DB)
    (e : ConnectErr) (db' : DB) (h : CreateTodo fail msg db = (Except.error e, db')) :
    db' = db := by
  unfold CreateTodo at h
  repeat' split at h
  all_goals simp_all [Prod.ext_iff]

/-- A successful RPC `UpdateTodo` found its target and commits exactly the
in-place replacement and one history append. -/
lemma updateTodo_ok_inv (fail : Nat → Bool) (msg : UpdateTodoRequest) (db : DB)
    (out : TodoMsg) (db' : DB) (h : UpdateTodo fail msg db = (Except.ok out, db')) :
    ∃ t0, findTodo db msg.id = some t0 ∧
      out = todoRowToMsg (updateTodoRowOf msg t0) ∧
      db' = { db with
        todos := db.todos.map (fun t => if t.id == msg.id then updateTodoRowOf msg t0 else t)
        history := db.history ++ [createHistoryRowOf (updateTodoRowOf msg t0) msg.userId "update" db]
        nextHistoryId := db.nextHistoryId + 1 } := by
  unfold UpdateTodo at h
  repeat' split at h
  all_goals simp_all [Prod.ext_iff]

/-- A failed RPC `UpdateTodo` leaves the store untouched. -/
lemma updateTodo_err_inv (fail : Nat → Bool) (msg : UpdateTodoRequest) (db : DB)
    (e : ConnectErr) (db' : DB) (h : UpdateTodo fail msg db = (Except.error e, db')) :
    db' = db := by
  unfold UpdateTodo at h
  repeat' split at h
  all_goals simp_all [Prod.ext_iff]

/-- A successful RPC `DeleteTodo` was performed by an authenticated admin on
an existing row, and commits the history insert followed by the cascading
delete. -/
lemma deleteTodo_ok_inv (fail : Nat → Bool) (ctx : Option Int) (msg : DeleteTodoRequest)
    (db : DB) (db' : DB) (h : DeleteTodo fail ctx msg db = (Except.ok (), db')) :
    ∃ uid user t0, ctx = some uid ∧ findUser db uid = some user ∧
      user.role.getD "" = "admin" ∧ findTodo db msg.id = some t0 ∧
      db' = deleteTodoCascade
        { db with
          history := db.history ++ [createHistoryRowOf t0 (t0.userId.getD 0) "delete" db]
          nextHistoryId := db.nextHistoryId + 1 } msg.id := by
  unfold DeleteTodo at h
  repeat' split at h
  all_goals simp_all [Prod.ext_iff]

/-- A failed RPC `DeleteTodo` leaves the store untouched. -/
lemma deleteTodo_err_inv (fail : Nat → Bool) (ctx : Option Int) (msg : DeleteTodoRequest)
    (db : DB) (e : ConnectErr) (db' : DB)
    (h : DeleteTodo fail ctx msg db = (Except.error e, db')) : db' = db := by
  unfold DeleteTodo at h
  repeat' split at h
  all_goals simp_all [Prod.ext_iff]

/-- With a failing status validation, `validateTodoInput` reports the first
failing check: the name check precedes both status checks. -/
lemma validateTodoInput_invalid (name status : String) (h : validStatus status = false) :
    validateTodoInput name status =
      some (if trimSpace name == "" then "name is required"
            else if status == "" then "status is required" else "invalid status") := by
  unfold validateTodoInput
  split_ifs with h1 h2 h3
  all_goals simp_all

/-- `validateTodoInput` succeeds only on a canonical status. -/
lemma validateTodoInput_none (name status : String)
    (h : validateTodoInput name status = none) : validStatus status = true := by
  unfold validateTodoInput at h
  split_ifs at h
  all_goals simp_all

/-- Executing a valid RPC `CreateTodo` with no injected store failure. -/
lemma createTodo_run (fail : Nat → Bool) (msg : CreateTodoRequest) (db : DB)
    (hv : validateTodoInput msg.name (mapStatusToString msg.status) = none)
    (hu : msg.userId ≠ 0) (h0 : fail 0 = false) (h1 : fail 1 = false)
    (h2 : fail 2 = false) (h3 : fail 3 = false) :
    CreateTodo fail msg db =
      (Except.ok (todoRowToMsg (createTodoRowOf msg db)),
        { db with
          todos := db.todos ++ [createTodoRowOf msg db]
          history := db.history ++ [createHistoryRowOf (createTodoRowOf msg db) msg.userId "create" db]
          nextTodoId := db.nextTodoId + 1
          nextHistoryId := db.nextHistoryId + 1 }) := by
  unfold CreateTodo
  rw [hv]
  simp [hu, h0, h1, h2, h3]

/-- Executing an admin RPC `DeleteTodo` on an existing row with no injected
store failure. -/
lemma deleteTodo_run (fail : Nat → Bool) (uid : Int) (msg : DeleteTodoRequest) (db : DB)
    (user : UserRow) (t0 : TodoRow)
    (hu : findUser db uid = some user) (hr : user.role.getD "" = "admin")
    (ht : findTodo db msg.id = some t0)
    (h0 : fail 0 = false) (h1 : fail 1 = false) (h2 : fail 2 = false)
    (h3 : fail 3 = false) (h4 : fail 4 = false) :
    DeleteTodo fail (some uid) msg db =
      (Except.ok (),
        deleteTodoCascade
          { db with
            history := db.history ++ [createHistoryRowOf t0 (t0.userId.getD 0) "delete" db]
            nextHistoryId := db.nextHistoryId + 1 } msg.id) := by
  unfold DeleteTodo
  simp [hu, ht, hr, h0, h1, h2, h3, h4]

/-- An RPC `UpdateTodo` whose target id matches no row aborts with not-found
and an unchanged store. -/
lemma updateTodo_notFound (fail : Nat → Bool) (msg : UpdateTodoRequest) (db : DB)
    (hv : validateTodoInput msg.name (mapStatusToString msg.status) = none)
    (hu : msg.userId ≠ 0) (h0 : fail 0 = false) (h1 : fail 1 = false)
    (ht : findTodo db msg.id = none) :
    UpdateTodo fail msg db = (Except.error (ConnectErr.notFound "todo not found"), db) := by
  unfold UpdateTodo
  rw [hv]
  simp [hu, h0, h1, ht]

/-- An admin RPC `DeleteTodo` whose target id matches no row aborts with
not-found and an unchanged store. -/
lemma deleteTodo_notFound (fail : Nat → Bool) (uid : Int) (msg : DeleteTodoRequest)
    (db : DB) (user : UserRow)
    (hu : findUser db uid = some user) (hr : user.role.getD "" = "admin")
    (h0 : fail 0 = false) (h1 : fail 1 = false) (ht : findTodo db msg.id = none) :
    DeleteTodo fail (some uid) msg db =
      (Except.error (ConnectErr.notFound "todo not found"), db) := by
  unfold DeleteTodo
  simp [hu, ht, hr, h0, h1]

/-- An RPC `CreateTodo` whose input fails validation responds
`InvalidArgument` with the validation message, before any database
interaction. -/
lemma createTodo_invalid (fail : Nat → Bool) (msg : CreateTodoRequest) (db : DB)
    (m : String) (h : validateTodoInput msg.name (mapStatusToString msg.status) = some m) :
    CreateTodo fail msg db = (Except.error (ConnectErr.invalidArgument m), db) := by
  unfold CreateTodo
  rw [h]

/-- An RPC `UpdateTodo` whose input fails validation responds
`InvalidArgument` with the validation message, before any database
interaction. -/
lemma updateTodo_invalid (fail : Nat → Bool) (msg : UpdateTodoRequest) (db : DB)
    (m : String) (h : validateTodoInput msg.name (mapStatusToString msg.status) = some m) :
    UpdateTodo fail msg db = (Except.error (ConnectErr.invalidArgument m), db) := by
  unfold UpdateTodo
  rw [h]

/-- `List.find?` skips a prefix containing no match. -/
lemma find?_append_of_none {α : Type u} {p : α → Bool} {l1 l2 : List α}
    (h : l1.find? p = none) : (l1 ++ l2).find? p = l2.find? p := by
  induction l1 with
  | nil => rfl
  | cons a l ih =>
    rw [List.cons_append, List.find?_cons] at *
    cases hp : p a with
    | true => simp [hp] at h
    | false =>
      simp only [hp] at h ⊢
      exact ih h

/-- After replacing the row whose id matches, `List.find?` by that id
returns the replacement, provided a matching row existed. -/
lemma find?_map_replace {l : List TodoRow} {id : Int} {t0 row : TodoRow}
    (h : l.find? (fun t => t.id == id) = some t0) (hrow : (row.id == id) = true) :
    (l.map (fun t => if t.id == id then row else t)).find? (fun t => t.id == id) =
      some row := by
  induction l with
  | nil => simp at h
  | cons a l ih =>
    rw [List.find?_cons] at h
    cases ha : (a.id == id) with
    | true =>
      simp only [List.map_cons]
      rw [List.find?_cons]
      simp [ha, hrow]
    | false =>
      simp only [ha] at h
      simp only [List.map_cons, List.find?_cons, ha, Bool.false_eq_true, if_false]
      exact ih h

/-- `sortDescBy` permutes its input. -/
lemma sortDescBy_perm {α : Type u} (key : α → Int) (l : List α) :
    (sortDescBy key l).Perm l :=
  List.perm_insertionSort _ l

/-- `sortDescBy` sorts descending by the key. -/
lemma sortDescBy_sorted {α : Type u} (key : α → Int) (l : List α) :
    (sortDescBy key l).Sorted (fun a b => key b ≤ key a) := by
  haveI : IsTotal α (fun a b => key b ≤ key a) := ⟨fun a b => le_total (key b) (key a)⟩
  haveI : IsTrans α (fun a b => key b ≤ key a) := ⟨fun _ _ _ hab hbc => le_trans hbc hab⟩
  exact List.sorted_insertionSort _ l

/-- A plain-surface create whose input fails validation responds 400 with the
validation message, before any database interaction. -/
lemma plainCreate_invalid (fail : Nat → Bool) (req : Plain.CreateTodoReq) (db : DB)
    (m : String) (h : validateTodoInput req.name req.status = some m) :
    Plain.handleCreateTodo fail req db = (Except.error (Plain.HErr.badRequest m), db) := by
  unfold Plain.handleCreateTodo
  rw [h]

/-- A plain-surface update whose input fails validation responds 400 with the
validation message, before any database interaction. -/
lemma plainUpdate_invalid (fail : Nat → Bool) (id : Int) (req : Plain.UpdateTodoReq)
    (db : DB) (m : String) (h : validateTodoInput req.name req.status = some m) :
    Plain.handleUpdateTodo fail id req db = (Except.error (Plain.HErr.badRequest m), db) := by
  unfold Plain.handleUpdateTodo
  rw [h]

/-- A successful plain-surface create commits exactly the insert and its
history append, with the actor resolved by explicit-else-owner precedence. -/
lemma plainCreate_ok_inv (fail : Nat → Bool) (req : Plain.CreateTodoReq) (db : DB)
    (out : Plain.Todo) (db' : DB)
    (h : Plain.handleCreateTodo fail req db = (Except.ok out, db')) :
    out = Plain.rowToTodo (Plain.createTodoRowOf req db) ∧
    db' = { db with
      todos := db.todos ++ [Plain.createTodoRowOf req db]
      history := db.history ++
        [Plain.historyRowOf (Plain.createTodoRowOf req db)
          (if req.actorUserId == 0 then req.userId else req.actorUserId) "create" db]
      nextTodoId := db.nextTodoId + 1
      nextHistoryId := db.nextHistoryId + 1 } := by
  unfold Plain.handleCreateTodo at h
  repeat' split at h
  all_goals simp_all [Prod.ext_iff]

/-- A successful plain-surface update commits exactly the replacement and its
history append, with the actor resolved by explicit-else-owner precedence. -/
lemma plainUpdate_ok_inv (fail : Nat → Bool) (id : Int) (req : Plain.UpdateTodoReq)
    (db : DB) (out : Plain.Todo) (db' : DB)
    (h : Plain.handleUpdateTodo fail id req db = (Except.ok out, db')) :
    ∃ t0, findTodo db id = some t0 ∧
      out = Plain.rowToTodo (Plain.updateTodoRowOf req t0) ∧
      db' = { db with
        todos := db.todos.map (fun t => if t.id == id then Plain.updateTodoRowOf req t0 else t)
        history := db.history ++
          [Plain.historyRowOf (Plain.updateTodoRowOf req t0)
            (if req.actorUserId == 0 then req.userId else req.actorUserId) "update" db]
        nextHistoryId := db.nextHistoryId + 1 } := by
  unfold Plain.handleUpdateTodo at h
  repeat' split at h
  all_goals simp_all [Prod.ext_iff]

/-- A successful plain-surface delete found its target and commits the
history insert followed by the cascading delete; the actor of the written
row resolves to the explicit actor, else the pre-delete owner. -/
lemma plainDelete_ok_inv (fail : Nat → Bool) (id : Int) (req : Plain.DeleteTodoReq)
    (db : DB) (db' : DB)
    (h : Plain.handleDeleteTodo fail id req db = (Except.ok (), db')) :
    ∃ t0, findTodo db id = some t0 ∧
      db' = deleteTodoCascade
        { db with
          history := db.history ++
            [Plain.historyRowOf t0
              (if req.actorUserId == 0 then t0.userId.getD 0 else req.actorUserId) "delete" db]
          nextHistoryId := db.nextHistoryId + 1 } id := by
  unfold Plain.handleDeleteTodo at h
  repeat' split at h
  all_goals simp_all [Prod.ext_iff]

/-- Executing a plain-surface delete on an existing row with no injected
store failure: it succeeds without consulting any identity or role. -/
lemma plainDelete_run (fail : Nat → Bool) (id : Int) (req : Plain.DeleteTodoReq)
    (db : DB) (t0 : TodoRow) (ht : findTodo db id = some t0)
    (h0 : fail 0 = false) (h1 : fail 1 = false) (h2 : fail 2 = false)
    (h3 : fail 3 = false) (h4 : fail 4 = false) :
    Plain.handleDeleteTodo fail id req db =
      (Except.ok (),
        deleteTodoCascade
          { db with
            history := db.history ++
              [Plain.historyRowOf t0
                (if req.actorUserId == 0 then t0.userId.getD 0 else req.actorUserId) "delete" db]
            nextHistoryId := db.nextHistoryId + 1 } id) := by
  unfold Plain.handleDeleteTodo
  simp [ht, h0, h1, h2, h3, h4]

/-- An RPC `DeleteTodo` by a verified non-admin fails before the transaction. -/
lemma deleteTodo_permissionDenied (fail : Nat → Bool) (uid : Int) (msg : DeleteTodoRequest)
    (db : DB) (user : UserRow)
    (hu : findUser db uid = some user) (hr : user.role.getD "" ≠ "admin") :
    DeleteTodo fail (some uid) msg db =
      (Except.error (ConnectErr.permissionDenied "only admins can delete todos"), db) := by
  unfold DeleteTodo
  simp [hu, hr]

end Secretary

namespace Secretary

/-- Claim C2: for every status string not in
`{not_started, partial, done, blocked, skipped}`, the create and update
handlers fail with a validation (`InvalidArgument`-class, HTTP 400) error
before any database interaction — the store is returned untouched for every
failure oracle — and, whenever the (earlier) name check passes, the message
is "status is required" for the empty string and "invalid status" otherwise. -/
theorem C2_status_write_strict :
    (∀ (fail : Nat → Bool) (req : Plain.CreateTodoReq) (db : DB),
      validStatus req.status = false →
      (∃ m, Plain.handleCreateTodo fail req db =
        (Except.error (Plain.HErr.badRequest m), db)) ∧
      (trimSpace req.name ≠ "" → req.status = "" →
        Plain.handleCreateTodo fail req db =
          (Except.error (Plain.HErr.badRequest "status is required"), db)) ∧
      (trimSpace req.name ≠ "" → req.status ≠ "" →
        Plain.handleCreateTodo fail req db =
          (Except.error (Plain.HErr.badRequest "invalid status"), db))) ∧
    (∀ (fail : Nat → Bool) (id : Int) (req : Plain.UpdateTodoReq) (db : DB),
      validStatus req.status = false →
      (∃ m, Plain.handleUpdateTodo fail id req db =
        (Except.error (Plain.HErr.badRequest m), db)) ∧
      (trimSpace req.name ≠ "" → req.status = "" →
        Plain.handleUpdateTodo fail id req db =
          (Except.error (Plain.HErr.badRequest "status is required"), db)) ∧
      (trimSpace req.name ≠ "" → req.status ≠ "" →
        Plain.handleUpdateTodo fail id req db =
          (Except.error (Plain.HErr.badRequest "invalid status"), db))) := by
  constructor
  · intro fail req db hs
    have hv := validateTodoInput_invalid req.name req.status hs
    refine ⟨⟨_, plainCreate_invalid _ _ _ _ hv⟩, ?_, ?_⟩
    · intro hn hq
      rw [plainCreate_invalid _ _ _ _ hv]
      simp [hn, hq]
    · intro hn hq
      rw [plainCreate_invalid _ _ _ _ hv]
      simp [hn, hq]
  · intro fail id req db hs
    have hv := validateTodoInput_invalid req.name req.status hs
    refine ⟨⟨_, plainUpdate_invalid _ _ _ _ _ hv⟩, ?_, ?_⟩
    · intro hn hq
      rw [plainUpdate_invalid _ _ _ _ _ hv]
      simp [hn, hq]
    · intro hn hq
      rw [plainUpdate_invalid _ _ _ _ _ hv]
      simp [hn, hq]

/-- Witness for C2 at concrete inputs: status `"pending"` on create is
rejected with "invalid status", empty status on update with
"status is required", both leaving the store untouched. -/
theorem C2_witness :
    Plain.handleCreateTodo noFail ⟨"x", "", "pending", 3, 0, 0, 0⟩ wdb =
      (Except.error (Plain.HErr.badRequest "invalid status"), wdb) ∧
    Plain.handleUpdateTodo noFail 5 ⟨"x", "", "", 3, 0, 0⟩ wdb =
      (Except.error (Plain.HErr.badRequest "status is required"), wdb) :=
  ⟨(C2_status_write_strict.1 noFail ⟨"x", "", "pending", 3, 0, 0, 0⟩ wdb (by decide)).2.2
      (by decide) (by decide),
   (C2_status_write_strict.2 noFail 5 ⟨"x", "", "", 3, 0, 0⟩ wdb (by decide)).2.1
      (by decide) (by decide)⟩

end Secretary

namespace Secretary

/-- Claim C5: an `UpdateTodo` or (admin) `DeleteTodo` whose target id matches
no stored row returns the `NotFound` failure and leaves the store — in
particular the `todo_history` table — exactly as it was. -/
theorem C5_notfound_aborts :
    (∀ (fail : Nat → Bool) (msg : UpdateTodoRequest) (db : DB),
      validateTodoInput msg.name (mapStatusToString msg.status) = none →
      msg.userId ≠ 0 → fail 0 = false → fail 1 = false →
      findTodo db msg.id = none →
      UpdateTodo fail msg db = (Except.error (ConnectErr.notFound "todo not found"), db)) ∧
    (∀ (fail : Nat → Bool) (uid : Int) (user : UserRow) (msg : DeleteTodoRequest) (db : DB),
      findUser db uid = some user → user.role.getD "" = "admin" →
      fail 0 = false → fail 1 = false → findTodo db msg.id = none →
      DeleteTodo fail (some uid) msg db =
        (Except.error (ConnectErr.notFound "todo not found"), db)) :=
  ⟨fun fail msg db hv hu h0 h1 ht => updateTodo_notFound fail msg db hv hu h0 h1 ht,
   fun fail uid user msg db hu hr h0 h1 ht => deleteTodo_notFound fail uid msg db user hu hr h0 h1 ht⟩

/-- Witness for C5: updating and deleting the nonexistent id 99 in the
fixture store both return not-found and leave the store unchanged. -/
theorem C5_witness :
    UpdateTodo noFail ⟨99, "n", "", 3, 3, 0, 0⟩ wdb =
      (Except.error (ConnectErr.notFound "todo not found"), wdb) ∧
    DeleteTodo noFail (some 1) ⟨99, 0⟩ wdb =
      (Except.error (ConnectErr.notFound "todo not found"), wdb) :=
  ⟨C5_notfound_aborts.1 noFail ⟨99, "n", "", 3, 3, 0, 0⟩ wdb (by decide) (by decide)
      (by decide) (by decide) (by decide),
   C5_notfound_aborts.2 noFail 1 adminUser ⟨99, 0⟩ wdb (by decide) (by decide)
      (by decide) (by decide) (by decide)⟩

end Secretary

namespace Secretary

/-- Claim C6 is false on the code (counterexample): the stored canonical
value `"not_started"` is not sent to its own display category — `mapStatus`
sends it to `TODO_STATUS_PARTIAL`, the same category as `"partial"` — and
the string `"DONE"`, which is neither canonical nor one of the listed legacy
synonyms, maps to `TODO_STATUS_DONE` rather than the unspecified category. -/
theorem C6_counterexample :
    mapStatus "not_started" = TODO_STATUS_PARTIAL ∧
    mapStatus "partial" = TODO_STATUS_PARTIAL ∧
    TODO_STATUS_PARTIAL ≠ TODO_STATUS_NOT_STARTED ∧
    mapStatus "DONE" = TODO_STATUS_DONE ∧
    TODO_STATUS_DONE ≠ TODO_STATUS_UNSPECIFIED := by decide

/-- Claim C6 (amended): after lowercasing and trimming, `mapStatus` sends
`partial`, `done`, `blocked`, `skipped` each to their own display category
but sends `not_started` to the same `TODO_STATUS_PARTIAL` category as
`partial`; it maps the legacy synonyms `pending` → partial,
`in_progress` / `"in progress"` → partial and `completed` → done (a stored
`"completed"` displays as done); and it sends every string whose
lowercased-trimmed form is none of these recognized tokens to the
unspecified category, without failing. -/
theorem C6_display_mapping :
    mapStatus "partial" = TODO_STATUS_PARTIAL ∧
    mapStatus "done" = TODO_STATUS_DONE ∧
    mapStatus "blocked" = TODO_STATUS_BLOCKED ∧
    mapStatus "skipped" = TODO_STATUS_SKIPPED ∧
    mapStatus "not_started" = TODO_STATUS_PARTIAL ∧
    mapStatus "pending" = TODO_STATUS_PARTIAL ∧
    mapStatus "in_progress" = TODO_STATUS_PARTIAL ∧
    mapStatus "in progress" = TODO_STATUS_PARTIAL ∧
    mapStatus "completed" = TODO_STATUS_DONE ∧
    (∀ s : String,
      toLowerStr (trimSpace s) ∉
        (["not_started", "pending", "partial", "in_progress", "in progress",
          "done", "completed", "blocked", "skipped"] : List String) →
      mapStatus s = TODO_STATUS_UNSPECIFIED) := by
  refine ⟨by decide, by decide, by decide, by decide, by decide, by decide, by decide,
    by decide, by decide, ?_⟩
  intro s hs
  simp only [List.mem_cons, List.not_mem_nil, or_false, not_or] at hs
  obtain ⟨h1, h2, h3, h4, h5, h6, h7, h8, h9⟩ := hs
  have b1 : (toLowerStr (trimSpace s) == "not_started") = false := beq_eq_false_iff_ne.mpr h1
  have b2 : (toLowerStr (trimSpace s) == "pending") = false := beq_eq_false_iff_ne.mpr h2
  have b3 : (toLowerStr (trimSpace s) == "partial") = false := beq_eq_false_iff_ne.mpr h3
  have b4 : (toLowerStr (trimSpace s) == "in_progress") = false := beq_eq_false_iff_ne.mpr h4
  have b5 : (toLowerStr (trimSpace s) == "in progress") = false := beq_eq_false_iff_ne.mpr h5
  have b6 : (toLowerStr (trimSpace s) == "done") = false := beq_eq_false_iff_ne.mpr h6
  have b7 : (toLowerStr (trimSpace s) == "completed") = false := beq_eq_false_iff_ne.mpr h7
  have b8 : (toLowerStr (trimSpace s) == "blocked") = false := beq_eq_false_iff_ne.mpr h8
  have b9 : (toLowerStr (trimSpace s) == "skipped") = false := beq_eq_false_iff_ne.mpr h9
  unfold mapStatus
  simp [b1, b2, b3, b4, b5, b6, b7, b8, b9]

/-- Witness for C6 (amended) at a concrete input: `"garbage"` is not a
recognized token and display-maps to the unspecified category. -/
theorem C6_witness : mapStatus "garbage" = TODO_STATUS_UNSPECIFIED :=
  C6_display_mapping.2.2.2.2.2.2.2.2.2 "garbage" (by decide)

end Secretary

namespace Secretary

/-- Claim C9: `ListTodosByUser` returns exactly the given owner's todos,
sorted descending by id, and `ListTodoHistory` returns exactly the given
todo's history rows, sorted descending by the recorded timestamp. -/
theorem C9_list_ordering :
    (∀ (db : DB) (uid : Int),
      (Queries.ListTodosByUser db uid).Perm
        (db.todos.filter (fun t => t.userId == some uid)) ∧
      (Queries.ListTodosByUser db uid).Sorted (fun a b => b.id ≤ a.id)) ∧
    (∀ (db : DB) (tid : Int),
      (Queries.ListTodoHistory db tid).Perm
        (db.history.filter (fun h => h.todoId == tid)) ∧
      (Queries.ListTodoHistory db tid).Sorted (fun a b => b.changedAt ≤ a.changedAt)) :=
  ⟨fun _ _ => ⟨sortDescBy_perm _ _, sortDescBy_sorted _ _⟩,
   fun _ _ => ⟨sortDescBy_perm _ _, sortDescBy_sorted _ _⟩⟩

/-- Claim C10: on the RPC write surface every status code outside the five
canonical enum cases — `TODO_STATUS_UNSPECIFIED` included — converts to the
empty string, so `CreateTodo` and `UpdateTodo` with such a status always
fail validation before the store is touched, never with "invalid status",
and — whenever the (earlier) name check passes — with "status is required". -/
theorem C10_enum_write_surface :
    (∀ s : Int,
      ¬(s = TODO_STATUS_NOT_STARTED ∨ s = TODO_STATUS_PARTIAL ∨ s = TODO_STATUS_DONE ∨
        s = TODO_STATUS_BLOCKED ∨ s = TODO_STATUS_SKIPPED) →
      mapStatusToString s = "") ∧
    (∀ (fail : Nat → Bool) (msg : CreateTodoRequest) (db : DB),
      ¬(msg.status = TODO_STATUS_NOT_STARTED ∨ msg.status = TODO_STATUS_PARTIAL ∨
        msg.status = TODO_STATUS_DONE ∨ msg.status = TODO_STATUS_BLOCKED ∨
        msg.status = TODO_STATUS_SKIPPED) →
      (∃ m, CreateTodo fail msg db = (Except.error (ConnectErr.invalidArgument m), db) ∧
        m ≠ "invalid status") ∧
      (trimSpace msg.name ≠ "" →
        CreateTodo fail msg db =
          (Except.error (ConnectErr.invalidArgument "status is required"), db))) ∧
    (∀ (fail : Nat → Bool) (msg : UpdateTodoRequest) (db : DB),
      ¬(msg.status = TODO_STATUS_NOT_STARTED ∨ msg.status = TODO_STATUS_PARTIAL ∨
        msg.status = TODO_STATUS_DONE ∨ msg.status = TODO_STATUS_BLOCKED ∨
        msg.status = TODO_STATUS_SKIPPED) →
      (∃ m, UpdateTodo fail msg db = (Except.error (ConnectErr.invalidArgument m), db) ∧
        m ≠ "invalid status") ∧
      (trimSpace msg.name ≠ "" →
        UpdateTodo fail msg db =
          (Except.error (ConnectErr.invalidArgument "status is required"), db))) := by
  have key : ∀ s : Int,
      ¬(s = TODO_STATUS_NOT_STARTED ∨ s = TODO_STATUS_PARTIAL ∨ s = TODO_STATUS_DONE ∨
        s = TODO_STATUS_BLOCKED ∨ s = TODO_STATUS_SKIPPED) →
      mapStatusToString s = "" := by
    intro s hs
    simp only [not_or] at hs
    obtain ⟨n1, n2, n3, n4, n5⟩ := hs
    unfold mapStatusToString
    simp [TODO_STATUS_NOT_STARTED, TODO_STATUS_PARTIAL, TODO_STATUS_DONE,
      TODO_STATUS_BLOCKED, TODO_STATUS_SKIPPED] at n1 n2 n3 n4 n5 ⊢
    simp [n1, n2, n3, n4, n5]
  have msg_of : ∀ (name : String) (s : Int),
      ¬(s = TODO_STATUS_NOT_STARTED ∨ s = TODO_STATUS_PARTIAL ∨ s = TODO_STATUS_DONE ∨
        s = TODO_STATUS_BLOCKED ∨ s = TODO_STATUS_SKIPPED) →
      validateTodoInput name (mapStatusToString s) =
        some (if trimSpace name == "" then "name is required" else "status is required") := by
    intro name s hs
    rw [key s hs]
    rw [validateTodoInput_invalid name "" (by decide)]
    simp
  refine ⟨key, ?_, ?_⟩
  · intro fail msg db hs
    have hv := msg_of msg.name msg.status hs
    constructor
    · refine ⟨_, createTodo_invalid _ _ _ _ hv, ?_⟩
      by_cases hn : (trimSpace msg.name == "") = true <;> simp [hn]
    · intro hn
      rw [createTodo_invalid _ _ _ _ hv]
      simp [hn]
  · intro fail msg db hs
    have hv := msg_of msg.name msg.status hs
    constructor
    · refine ⟨_, updateTodo_invalid _ _ _ _ hv, ?_⟩
      by_cases hn : (trimSpace msg.name == "") = true <;> simp [hn]
    · intro hn
      rw [updateTodo_invalid _ _ _ _ hv]
      simp [hn]

/-- Witness for C10: creating with `TODO_STATUS_UNSPECIFIED` (code 0) and
updating with the unknown code 42 both fail with "status is required". -/
theorem C10_witness :
    CreateTodo noFail ⟨"x", "", 0, 3, 0, 0, 0⟩ wdb =
      (Except.error (ConnectErr.invalidArgument "status is required"), wdb) ∧
    UpdateTodo noFail ⟨5, "x", "", 42, 3, 0, 0⟩ wdb =
      (Except.error (ConnectErr.invalidArgument "status is required"), wdb) :=
  ⟨(C10_enum_write_surface.2.1 noFail ⟨"x", "", 0, 3, 0, 0, 0⟩ wdb (by decide)).2 (by decide),
   (C10_enum_write_surface.2.2 noFail ⟨5, "x", "", 42, 3, 0, 0⟩ wdb (by decide)).2 (by decide)⟩

end Secretary

namespace Secretary

/-- Claim C1 is false on the code for `DeleteTodo` (counterexample): in the
fixture store, an admin delete of todo 5 succeeds, yet the committed state
contains no `"delete"` history row at all — the handler inserts the delete
ledger row and then runs `DELETE FROM todo`, whose `ON DELETE CASCADE`
removes that very row before commit — so no "new matching todo_history row"
is committed together with the successful mutation. -/
theorem C1_counterexample :
    (DeleteTodo noFail (some 1) ⟨5, 0⟩ wdb).1 = Except.ok () ∧
    ((DeleteTodo noFail (some 1) ⟨5, 0⟩ wdb).2.history.filter
      (fun h => h.changeType == "delete")) = [] ∧
    (DeleteTodo noFail (some 1) ⟨5, 0⟩ wdb).2.history = [] := by decide

/-- Claim C1 (amended): every successful `CreateTodo` / `UpdateTodo` commits
the todo mutation together with exactly one new matching snapshot history
row, in one transaction; every successful `DeleteTodo` commits the removal
of the todo row together with the removal of every history row of that todo
(the `"delete"` row written inside the same transaction included, via the
schema's `ON DELETE CASCADE`); and every invocation that returns an error —
under any injected failure pattern — leaves the store exactly as it was. -/
theorem C1_atomicity :
    (∀ (fail : Nat → Bool) (msg : CreateTodoRequest) (db : DB) (out : TodoMsg),
      (CreateTodo fail msg db).1 = Except.ok out →
      (CreateTodo fail msg db).2.todos = db.todos ++ [createTodoRowOf msg db] ∧
      (CreateTodo fail msg db).2.history =
        db.history ++ [createHistoryRowOf (createTodoRowOf msg db) msg.userId "create" db]) ∧
    (∀ (fail : Nat → Bool) (msg : CreateTodoRequest) (db : DB) (e : ConnectErr),
      (CreateTodo fail msg db).1 = Except.error e → (CreateTodo fail msg db).2 = db) ∧
    (∀ (fail : Nat → Bool) (msg : UpdateTodoRequest) (db : DB) (out : TodoMsg),
      (UpdateTodo fail msg db).1 = Except.ok out →
      ∃ t0, findTodo db msg.id = some t0 ∧
        (UpdateTodo fail msg db).2.todos =
          db.todos.map (fun t => if t.id == msg.id then updateTodoRowOf msg t0 else t) ∧
        (UpdateTodo fail msg db).2.history =
          db.history ++ [createHistoryRowOf (updateTodoRowOf msg t0) msg.userId "update" db]) ∧
    (∀ (fail : Nat → Bool) (msg : UpdateTodoRequest) (db : DB) (e : ConnectErr),
      (UpdateTodo fail msg db).1 = Except.error e → (UpdateTodo fail msg db).2 = db) ∧
    (∀ (fail : Nat → Bool) (ctx : Option Int) (msg : DeleteTodoRequest) (db : DB),
      (DeleteTodo fail ctx msg db).1 = Except.ok () →
      (DeleteTodo fail ctx msg db).2.todos = db.todos.filter (fun t => !(t.id == msg.id)) ∧
      (DeleteTodo fail ctx msg db).2.history =
        db.history.filter (fun h => !(h.todoId == msg.id))) ∧
    (∀ (fail : Nat → Bool) (ctx : Option Int) (msg : DeleteTodoRequest) (db : DB)
      (e : ConnectErr),
      (DeleteTodo fail ctx msg db).1 = Except.error e → (DeleteTodo fail ctx msg db).2 = db) := by
  refine ⟨?_, ?_, ?_, ?_, ?_, ?_⟩
  · intro fail msg db out h
    rcases he : CreateTodo fail msg db with ⟨r, db2⟩
    rw [he] at h
    cases r with
    | error e => simp at h
    | ok o =>
      obtain ⟨-, h2⟩ := createTodo_ok_inv fail msg db o db2 he
      subst h2
      exact ⟨rfl, rfl⟩
  · intro fail msg db e h
    rcases he : CreateTodo fail msg db with ⟨r, db2⟩
    rw [he] at h
    cases r with
    | ok o => simp at h
    | error e2 => exact createTodo_err_inv fail msg db e2 db2 he
  · intro fail msg db out h
    rcases he : UpdateTodo fail msg db with ⟨r, db2⟩
    rw [he] at h
    cases r with
    | error e => simp at h
    | ok o =>
      obtain ⟨t0, ht, -, h2⟩ := updateTodo_ok_inv fail msg db o db2 he
      subst h2
      exact ⟨t0, ht, rfl, rfl⟩
  · intro fail msg db e h
    rcases he : UpdateTodo fail msg db with ⟨r, db2⟩
    rw [he] at h
    cases r with
    | ok o => simp at h
    | error e2 => exact updateTodo_err_inv fail msg db e2 db2 he
  · intro fail ctx msg db h
    rcases he : DeleteTodo fail ctx msg db with ⟨r, db2⟩
    rw [he] at h
    cases r with
    | error e => simp at h
    | ok o =>
      obtain ⟨uid, user, t0, -, -, -, ht, h2⟩ := deleteTodo_ok_inv fail ctx msg db db2 he
      subst h2
      have hid : (t0.id == msg.id) = true := by
        have := List.find?_some ht
        simpa using this
      constructor
      · rfl
      · show (db.history ++ [createHistoryRowOf t0 (t0.userId.getD 0) "delete" db]).filter
            (fun h => !(h.todoId == msg.id)) = db.history.filter (fun h => !(h.todoId == msg.id))
        rw [List.filter_append]
        have : (createHistoryRowOf t0 (t0.userId.getD 0) "delete" db).todoId = t0.id := rfl
        simp [this, hid]
  · intro fail ctx msg db e h
    rcases he : DeleteTodo fail ctx msg db with ⟨r, db2⟩
    rw [he] at h
    cases r with
    | ok o => simp at h
    | error e2 => exact deleteTodo_err_inv fail ctx msg db e2 db2 he

end Secretary

namespace Secretary

/-- Witness for C1 (amended) on concrete runs: a successful create commits
both writes, a create whose transaction cannot even begin leaves the store
unchanged, and a successful admin delete removes the todo row and every
history row of that todo. -/
theorem C1_witness :
    ((CreateTodo noFail ⟨"t", "", 3, 2, 4, 0, 0⟩ wdb).2.todos =
        wdb.todos ++ [createTodoRowOf ⟨"t", "", 3, 2, 4, 0, 0⟩ wdb] ∧
      (CreateTodo noFail ⟨"t", "", 3, 2, 4, 0, 0⟩ wdb).2.history =
        wdb.history ++
          [createHistoryRowOf (createTodoRowOf ⟨"t", "", 3, 2, 4, 0, 0⟩ wdb) 2 "create" wdb]) ∧
    (CreateTodo allFail ⟨"t", "", 3, 2, 4, 0, 0⟩ wdb).2 = wdb ∧
    ((DeleteTodo noFail (some 1) ⟨5, 0⟩ wdb).2.todos =
        wdb.todos.filter (fun t => !(t.id == 5)) ∧
      (DeleteTodo noFail (some 1) ⟨5, 0⟩ wdb).2.history =
        wdb.history.filter (fun h => !(h.todoId == 5))) :=
  ⟨C1_atomicity.1 noFail ⟨"t", "", 3, 2, 4, 0, 0⟩ wdb
      (todoRowToMsg (createTodoRowOf ⟨"t", "", 3, 2, 4, 0, 0⟩ wdb)) (by decide),
   C1_atomicity.2.1 allFail ⟨"t", "", 3, 2, 4, 0, 0⟩ wdb
      (ConnectErr.internal "failed to start transaction") (by decide),
   C1_atomicity.2.2.2.2.1 noFail (some 1) ⟨5, 0⟩ wdb (by decide)⟩

/-- Claim C3 is false on the code (counterexample): on the RPC surface, a
`CreateTodo` request that explicitly supplies actor user id 7 succeeds, yet
the new history row records the owner (user 2) as actor, not 7. -/
theorem C3_counterexample :
    (⟨"t", "", 3, 2, 4, 0, 7⟩ : CreateTodoRequest).actorUserId = 7 ∧
    (⟨"t", "", 3, 2, 4, 0, 7⟩ : CreateTodoRequest).userId = 2 ∧
    (CreateTodo noFail ⟨"t", "", 3, 2, 4, 0, 7⟩ wdb).1 =
      Except.ok (todoRowToMsg (createTodoRowOf ⟨"t", "", 3, 2, 4, 0, 7⟩ wdb)) ∧
    (CreateTodo noFail ⟨"t", "", 3, 2, 4, 0, 7⟩ wdb).2.history.map (fun h => h.actorUserId) =
      [some 2, some 2] ∧
    (7 : Int) ≠ 2 := by decide

/-- Claim C3 (amended): on the plain-HTTP surface an explicitly supplied
actor user id is recorded in the history row, and only when it is absent
(zero) does the actor default to the owning user id (create/update) or to
the pre-delete owner (delete); on the RPC surface the request's actor field
is ignored entirely — the handlers' results are invariant in it — and the
history row's actor is always the owning user id (create/update) or the
pre-delete owner (delete). -/
theorem C3_actor_resolution :
    (∀ (fail : Nat → Bool) (req : Plain.CreateTodoReq) (db : DB) (out : Plain.Todo),
      (Plain.handleCreateTodo fail req db).1 = Except.ok out →
      ∃ h, (Plain.handleCreateTodo fail req db).2.history = db.history ++ [h] ∧
        h.changeType = "create" ∧
        h.actorUserId = nullInt (if req.actorUserId = 0 then req.userId else req.actorUserId)) ∧
    (∀ (fail : Nat → Bool) (id : Int) (req : Plain.UpdateTodoReq) (db : DB)
      (out : Plain.Todo),
      (Plain.handleUpdateTodo fail id req db).1 = Except.ok out →
      ∃ h, (Plain.handleUpdateTodo fail id req db).2.history = db.history ++ [h] ∧
        h.changeType = "update" ∧
        h.actorUserId = nullInt (if req.actorUserId = 0 then req.userId else req.actorUserId)) ∧
    (∀ (fail : Nat → Bool) (id : Int) (req : Plain.DeleteTodoReq) (db : DB),
      (Plain.handleDeleteTodo fail id req db).1 = Except.ok () →
      ∃ t0, findTodo db id = some t0 ∧
        (Plain.handleDeleteTodo fail id req db).2 =
          deleteTodoCascade
            { db with
              history := db.history ++
                [Plain.historyRowOf t0
                  (if req.actorUserId = 0 then t0.userId.getD 0 else req.actorUserId)
                  "delete" db]
              nextHistoryId := db.nextHistoryId + 1 } id) ∧
    (∀ (fail : Nat → Bool) (msg : CreateTodoRequest) (db : DB) (a : Int),
      CreateTodo fail { msg with actorUserId := a } db = CreateTodo fail msg db) ∧
    (∀ (fail : Nat → Bool) (msg : UpdateTodoRequest) (db : DB) (a : Int),
      UpdateTodo fail { msg with actorUserId := a } db = UpdateTodo fail msg db) ∧
    (∀ (fail : Nat → Bool) (ctx : Option Int) (msg : DeleteTodoRequest) (db : DB) (a : Int),
      DeleteTodo fail ctx { msg with actorUserId := a } db = DeleteTodo fail ctx msg db) ∧
    (∀ (fail : Nat → Bool) (msg : CreateTodoRequest) (db : DB) (out : TodoMsg),
      (CreateTodo fail msg db).1 = Except.ok out →
      ∃ h, (CreateTodo fail msg db).2.history = db.history ++ [h] ∧
        h.changeType = "create" ∧ h.actorUserId = some msg.userId) ∧
    (∀ (fail : Nat → Bool) (msg : UpdateTodoRequest) (db : DB) (out : TodoMsg),
      (UpdateTodo fail msg db).1 = Except.ok out →
      ∃ h, (UpdateTodo fail msg db).2.history = db.history ++ [h] ∧
        h.changeType = "update" ∧ h.actorUserId = some msg.userId) ∧
    (∀ (fail : Nat → Bool) (ctx : Option Int) (msg : DeleteTodoRequest) (db : DB),
      (DeleteTodo fail ctx msg db).1 = Except.ok () →
      ∃ t0, findTodo db msg.id = some t0 ∧
        (DeleteTodo fail ctx msg db).2 =
          deleteTodoCascade
            { db with
              history := db.history ++
                [createHistoryRowOf t0 (t0.userId.getD 0) "delete" db]
              nextHistoryId := db.nextHistoryId + 1 } msg.id) := by
  refine ⟨?_, ?_, ?_, ?_, ?_, ?_, ?_, ?_, ?_⟩
  · intro fail req db out h
    rcases he : Plain.handleCreateTodo fail req db with ⟨r, db2⟩
    rw [he] at h
    cases r with
    | error e => simp at h
    | ok o =>
      obtain ⟨-, h2⟩ := plainCreate_ok_inv fail req db o db2 he
      subst h2
      refine ⟨_, rfl, rfl, ?_⟩
      by_cases ha : req.actorUserId = 0 <;> simp [Plain.historyRowOf, ha]
  · intro fail id req db out h
    rcases he : Plain.handleUpdateTodo fail id req db with ⟨r, db2⟩
    rw [he] at h
    cases r with
    | error e => simp at h
    | ok o =>
      obtain ⟨t0, -, -, h2⟩ := plainUpdate_ok_inv fail id req db o db2 he
      subst h2
      refine ⟨_, rfl, rfl, ?_⟩
      by_cases ha : req.actorUserId = 0 <;> simp [Plain.historyRowOf, ha]
  · intro fail id req db h
    rcases he : Plain.handleDeleteTodo fail id req db with ⟨r, db2⟩
    rw [he] at h
    cases r with
    | error e => simp at h
    | ok o =>
      obtain ⟨t0, ht, h2⟩ := plainDelete_ok_inv fail id req db db2 he
      subst h2
      refine ⟨t0, ht, ?_⟩
      by_cases ha : req.actorUserId = 0 <;> simp [ha]
  · intro fail msg db a
    rfl
  · intro fail msg db a
    rfl
  · intro fail ctx msg db a
    rfl
  · intro fail msg db out h
    rcases he : CreateTodo fail msg db with ⟨r, db2⟩
    rw [he] at h
    cases r with
    | error e => simp at h
    | ok o =>
      obtain ⟨-, h2⟩ := createTodo_ok_inv fail msg db o db2 he
      subst h2
      exact ⟨_, rfl, rfl, rfl⟩
  · intro fail msg db out h
    rcases he : UpdateTodo fail msg db with ⟨r, db2⟩
    rw [he] at h
    cases r with
    | error e => simp at h
    | ok o =>
      obtain ⟨t0, -, -, h2⟩ := updateTodo_ok_inv fail msg db o db2 he
      subst h2
      exact ⟨_, rfl, rfl, rfl⟩
  · intro fail ctx msg db h
    rcases he : DeleteTodo fail ctx msg db with ⟨r, db2⟩
    rw [he] at h
    cases r with
    | error e => simp at h
    | ok o =>
      obtain ⟨uid, user, t0, -, -, -, ht, h2⟩ := deleteTodo_ok_inv fail ctx msg db db2 he
      exact ⟨t0, ht, h2⟩

end Secretary

namespace Secretary

/-- Witness for C3 (amended): a plain-surface create with explicit actor 7
records actor 7; an RPC create with explicit actor 7 records the owner 2. -/
theorem C3_witness :
    (∃ h, (Plain.handleCreateTodo noFail ⟨"t", "d", "done", 2, 4, 0, 7⟩ wdb).2.history =
        wdb.history ++ [h] ∧ h.changeType = "create" ∧
        h.actorUserId = nullInt (if (7 : Int) = 0 then 2 else 7)) ∧
    (∃ h, (CreateTodo noFail ⟨"t", "", 3, 2, 4, 0, 7⟩ wdb).2.history = wdb.history ++ [h] ∧
        h.changeType = "create" ∧ h.actorUserId = some 2) :=
  ⟨C3_actor_resolution.1 noFail ⟨"t", "d", "done", 2, 4, 0, 7⟩ wdb
      (Plain.rowToTodo (Plain.createTodoRowOf ⟨"t", "d", "done", 2, 4, 0, 7⟩ wdb)) (by decide),
   C3_actor_resolution.2.2.2.2.2.2.1 noFail ⟨"t", "", 3, 2, 4, 0, 7⟩ wdb
      (todoRowToMsg (createTodoRowOf ⟨"t", "", 3, 2, 4, 0, 7⟩ wdb)) (by decide)⟩

/-- Claim C4 is false on the code (counterexample): on the plain-HTTP
surface — whose middleware only verifies the bearer token and whose delete
handler consults no role at all — a delete performed in a store whose only
user is the non-admin `"tester"` succeeds and removes the row, instead of
failing with `PermissionDenied`. -/
theorem C4_counterexample :
    wdbNoAdmin.users.map (fun u => u.role) = [some "tester"] ∧
    (Plain.handleDeleteTodo noFail 5 ⟨0⟩ wdbNoAdmin).1 = Except.ok () ∧
    (Plain.handleDeleteTodo noFail 5 ⟨0⟩ wdbNoAdmin).2.todos = [] := by decide

/-- Claim C4 (amended): on the ConnectRPC surface, `DeleteTodo` by a
verified identity whose role is not `"admin"` fails with `PermissionDenied`
and leaves the store — todo row and history — untouched, while an
admin-role identity proceeds (succeeds when the target exists and no store
failure is injected); the legacy plain-HTTP surface performs no role check
and its delete proceeds regardless of the roles present. -/
theorem C4_admin_gate :
    (∀ (fail : Nat → Bool) (uid : Int) (user : UserRow) (msg : DeleteTodoRequest) (db : DB),
      findUser db uid = some user → user.role.getD "" ≠ "admin" →
      DeleteTodo fail (some uid) msg db =
        (Except.error (ConnectErr.permissionDenied "only admins can delete todos"), db)) ∧
    (∀ (fail : Nat → Bool) (uid : Int) (user : UserRow) (msg : DeleteTodoRequest) (db : DB)
      (t0 : TodoRow),
      findUser db uid = some user → user.role.getD "" = "admin" →
      findTodo db msg.id = some t0 →
      fail 0 = false → fail 1 = false → fail 2 = false → fail 3 = false → fail 4 = false →
      (DeleteTodo fail (some uid) msg db).1 = Except.ok ()) ∧
    (∀ (fail : Nat → Bool) (id : Int) (req : Plain.DeleteTodoReq) (db : DB) (t0 : TodoRow),
      findTodo db id = some t0 →
      fail 0 = false → fail 1 = false → fail 2 = false → fail 3 = false → fail 4 = false →
      (Plain.handleDeleteTodo fail id req db).1 = Except.ok ()) := by
  refine ⟨?_, ?_, ?_⟩
  · intro fail uid user msg db hu hr
    exact deleteTodo_permissionDenied fail uid msg db user hu hr
  · intro fail uid user msg db t0 hu hr ht h0 h1 h2 h3 h4
    rw [deleteTodo_run fail uid msg db user t0 hu hr ht h0 h1 h2 h3 h4]
  · intro fail id req db t0 ht h0 h1 h2 h3 h4
    rw [plainDelete_run fail id req db t0 ht h0 h1 h2 h3 h4]

/-- Witness for C4 (amended): in the fixture store, the tester identity's
RPC delete is refused with `PermissionDenied` and the admin identity's RPC
delete succeeds; the plain-surface delete succeeds with no admin present. -/
theorem C4_witness :
    DeleteTodo noFail (some 2) ⟨5, 0⟩ wdb =
      (Except.error (ConnectErr.permissionDenied "only admins can delete todos"), wdb) ∧
    (DeleteTodo noFail (some 1) ⟨5, 0⟩ wdb).1 = Except.ok () ∧
    (Plain.handleDeleteTodo noFail 5 ⟨0⟩ wdbNoAdmin).1 = Except.ok () :=
  ⟨C4_admin_gate.1 noFail 2 testerUser ⟨5, 0⟩ wdb (by decide) (by decide),
   C4_admin_gate.2.1 noFail 1 adminUser ⟨5, 0⟩ wdb todo5 (by decide) (by decide) (by decide)
      (by decide) (by decide) (by decide) (by decide) (by decide),
   C4_admin_gate.2.2 noFail 5 ⟨0⟩ wdbNoAdmin todo5 (by decide) (by decide) (by decide)
      (by decide) (by decide) (by decide)⟩

end Secretary

namespace Secretary

/-- Claim C7: after a successfully committed `DeleteTodo`, no todo row and
no `todo_history` row referencing the deleted id remains, and a subsequent
`ListTodoHistory` for that id returns the empty sequence (both at the query
level and through the RPC handler). -/
theorem C7_cascade :
    ∀ (fail : Nat → Bool) (ctx : Option Int) (msg : DeleteTodoRequest) (db : DB),
      (DeleteTodo fail ctx msg db).1 = Except.ok () →
      (∀ t ∈ (DeleteTodo fail ctx msg db).2.todos, t.id ≠ msg.id) ∧
      (∀ h ∈ (DeleteTodo fail ctx msg db).2.history, h.todoId ≠ msg.id) ∧
      Queries.ListTodoHistory (DeleteTodo fail ctx msg db).2 msg.id = [] ∧
      (∀ fail2 : Nat → Bool, fail2 0 = false →
        ListTodoHistory fail2 msg.id (DeleteTodo fail ctx msg db).2 =
          (Except.ok [], (DeleteTodo fail ctx msg db).2)) := by
  intro fail ctx msg db h
  rcases he : DeleteTodo fail ctx msg db with ⟨r, db2⟩
  rw [he] at h
  cases r with
  | error e => simp at h
  | ok o =>
    obtain ⟨uid, user, t0, -, -, -, ht, h2⟩ := deleteTodo_ok_inv fail ctx msg db db2 he
    subst h2
    have htodos : ∀ t ∈ (deleteTodoCascade
        { db with
          history := db.history ++ [createHistoryRowOf t0 (t0.userId.getD 0) "delete" db]
          nextHistoryId := db.nextHistoryId + 1 } msg.id).todos, t.id ≠ msg.id := by
      intro t htm
      simp only [deleteTodoCascade, List.mem_filter] at htm
      simpa using htm.2
    have hhist : ∀ h ∈ (deleteTodoCascade
        { db with
          history := db.history ++ [createHistoryRowOf t0 (t0.userId.getD 0) "delete" db]
          nextHistoryId := db.nextHistoryId + 1 } msg.id).history, h.todoId ≠ msg.id := by
      intro hr hm
      simp only [deleteTodoCascade, List.mem_filter] at hm
      simpa using hm.2
    have hquery : Queries.ListTodoHistory (deleteTodoCascade
        { db with
          history := db.history ++ [createHistoryRowOf t0 (t0.userId.getD 0) "delete" db]
          nextHistoryId := db.nextHistoryId + 1 } msg.id) msg.id = [] := by
      unfold Queries.ListTodoHistory
      have : (deleteTodoCascade
          { db with
            history := db.history ++ [createHistoryRowOf t0 (t0.userId.getD 0) "delete" db]
            nextHistoryId := db.nextHistoryId + 1 } msg.id).history.filter
            (fun h => h.todoId == msg.id) = [] := by
        rw [List.filter_eq_nil_iff]
        intro a ha
        have := hhist a ha
        simpa using this
      rw [this]
      rfl
    refine ⟨htodos, hhist, hquery, ?_⟩
    intro fail2 hf2
    unfold ListTodoHistory
    rw [hquery]
    simp [hf2]

/-- Witness for C7: the concrete admin delete of todo 5 leaves an empty
`ListTodoHistory` result for id 5, at the query level and through the RPC
handler. -/
theorem C7_witness :
    Queries.ListTodoHistory (DeleteTodo noFail (some 1) ⟨5, 0⟩ wdb).2 5 = [] ∧
    ListTodoHistory noFail 5 (DeleteTodo noFail (some 1) ⟨5, 0⟩ wdb).2 =
      (Except.ok [], (DeleteTodo noFail (some 1) ⟨5, 0⟩ wdb).2) :=
  ⟨(C7_cascade noFail (some 1) ⟨5, 0⟩ wdb (by decide)).2.2.1,
   (C7_cascade noFail (some 1) ⟨5, 0⟩ wdb (by decide)).2.2.2 noFail (by decide)⟩

end Secretary

namespace Secretary

/-- Claim C8: a zero/unset recording reference is persisted as SQL NULL and
never as the literal 0 — `nullInt` and the insert/update parameters of both
surfaces map 0 to null and never produce `some 0` — and after an RPC create
with both references unset, the created row stores null in both columns,
the create response reports both fields absent, and a subsequent `GetTodo`
of the new id reports them absent as well; likewise, an RPC or plain-HTTP
update with a zero `updated_at_recording_id` persists that column as null,
never `some 0`, and after a successful RPC update the response and a
subsequent `GetTodo` of the target id report the field absent. -/
theorem C8_null_recording_refs :
    nullInt 0 = none ∧
    (∀ v : Int, v ≠ 0 → nullInt v = some v) ∧
    (∀ (msg : CreateTodoRequest) (db : DB),
      (msg.createdAtRecordingId = 0 → (createTodoRowOf msg db).createdAtRecordingId = none) ∧
      (msg.updatedAtRecordingId = 0 → (createTodoRowOf msg db).updatedAtRecordingId = none) ∧
      (createTodoRowOf msg db).createdAtRecordingId ≠ some 0 ∧
      (createTodoRowOf msg db).updatedAtRecordingId ≠ some 0) ∧
    (∀ (req : Plain.CreateTodoReq) (db : DB),
      (Plain.createTodoRowOf req db).createdAtRecordingId = nullInt req.createdAtRecordingId ∧
      (Plain.createTodoRowOf req db).updatedAtRecordingId = nullInt req.updatedAtRecordingId) ∧
    (∀ (fail : Nat → Bool) (msg : CreateTodoRequest) (db : DB) (out : TodoMsg),
      msg.createdAtRecordingId = 0 → msg.updatedAtRecordingId = 0 →
      (∀ t ∈ db.todos, t.id ≠ db.nextTodoId) →
      (CreateTodo fail msg db).1 = Except.ok out →
      out.createdAtRecordingId = none ∧ out.updatedAtRecordingId = none ∧
      (∀ fail2 : Nat → Bool, fail2 0 = false →
        GetTodo fail2 db.nextTodoId (CreateTodo fail msg db).2 =
          (Except.ok out, (CreateTodo fail msg db).2))) ∧
    (∀ (msg : UpdateTodoRequest) (t0 : TodoRow),
      (msg.updatedAtRecordingId = 0 → (updateTodoRowOf msg t0).updatedAtRecordingId = none) ∧
      (updateTodoRowOf msg t0).updatedAtRecordingId ≠ some 0) ∧
    (∀ (req : Plain.UpdateTodoReq) (t0 : TodoRow),
      (Plain.updateTodoRowOf req t0).updatedAtRecordingId = nullInt req.updatedAtRecordingId) ∧
    (∀ (fail : Nat → Bool) (msg : UpdateTodoRequest) (db : DB) (out : TodoMsg),
      msg.updatedAtRecordingId = 0 →
      (UpdateTodo fail msg db).1 = Except.ok out →
      out.updatedAtRecordingId = none ∧
      (∀ fail2 : Nat → Bool, fail2 0 = false →
        GetTodo fail2 msg.id (UpdateTodo fail msg db).2 =
          (Except.ok out, (UpdateTodo fail msg db).2))) := by
  refine ⟨rfl, ?_, ?_, ?_, ?_, ?_, ?_, ?_⟩
  · intro v hv
    simp [nullInt, hv]
  · intro msg db
    refine ⟨fun hc => by simp [createTodoRowOf, hc], fun hu => by simp [createTodoRowOf, hu],
      ?_, ?_⟩
    · unfold createTodoRowOf
      by_cases hc : msg.createdAtRecordingId = 0 <;> simp [hc]
    · unfold createTodoRowOf
      by_cases hu : msg.updatedAtRecordingId = 0 <;> simp [hu]
  · intro req db
    exact ⟨rfl, rfl⟩
  · intro fail msg db out hc hu hfresh h
    rcases he : CreateTodo fail msg db with ⟨r, db2⟩
    rw [he] at h
    cases r with
    | error e => simp at h
    | ok o =>
      obtain ⟨ho, h2⟩ := createTodo_ok_inv fail msg db o db2 he
      have hout : out = todoRowToMsg (createTodoRowOf msg db) := by
        simp at h
        rw [← h, ho]
      have rowC : (createTodoRowOf msg db).createdAtRecordingId = none := by
        simp [createTodoRowOf, hc]
      have rowU : (createTodoRowOf msg db).updatedAtRecordingId = none := by
        simp [createTodoRowOf, hu]
      refine ⟨by rw [hout]; exact rowC, by rw [hout]; exact rowU, ?_⟩
      intro fail2 hf2
      have hfind : findTodo db2 db.nextTodoId = some (createTodoRowOf msg db) := by
        subst h2
        show ((db.todos ++ [createTodoRowOf msg db]).find?
          (fun t => t.id == db.nextTodoId)) = some (createTodoRowOf msg db)
        rw [find?_append_of_none (List.find?_eq_none.mpr (fun t htm => by
          simp [hfresh t htm]))]
        simp [createTodoRowOf]
      unfold GetTodo
      rw [hfind]
      simp [hf2, hout]
  · intro msg t0
    constructor
    · intro hu
      simp [updateTodoRowOf, hu]
    · unfold updateTodoRowOf
      by_cases hu : msg.updatedAtRecordingId = 0 <;> simp [hu]
  · intro req t0
    rfl
  · intro fail msg db out hu h
    rcases he : UpdateTodo fail msg db with ⟨r, db2⟩
    rw [he] at h
    cases r with
    | error e => simp at h
    | ok o =>
      obtain ⟨t0, ht, ho, h2⟩ := updateTodo_ok_inv fail msg db o db2 he
      have hout : out = todoRowToMsg (updateTodoRowOf msg t0) := by
        simp at h
        rw [← h, ho]
      have rowU : (updateTodoRowOf msg t0).updatedAtRecordingId = none := by
        simp [updateTodoRowOf, hu]
      refine ⟨by rw [hout]; exact rowU, ?_⟩
      intro fail2 hf2
      have h1 := List.find?_some ht
      have hid : ((updateTodoRowOf msg t0).id == msg.id) = true := by
        simpa [updateTodoRowOf] using h1
      have hfind : findTodo db2 msg.id = some (updateTodoRowOf msg t0) := by
        subst h2
        show ((db.todos.map
            (fun t => if t.id == msg.id then updateTodoRowOf msg t0 else t)).find?
          (fun t => t.id == msg.id)) = some (updateTodoRowOf msg t0)
        exact find?_map_replace ht hid
      unfold GetTodo
      rw [hfind]
      simp [hf2, hout]

/-- Witness for C8: creating a todo in the fixture store with both recording
references 0 stores NULL, answers with absent fields, and `GetTodo` of the
new id 6 reports them absent, never 0; updating todo 5 with a zero
`updated_at_recording_id` stores NULL on both surfaces and `GetTodo` of id 5
reports the field absent. -/
theorem C8_witness :
    nullInt 5 = some 5 ∧
    (todoRowToMsg (createTodoRowOf ⟨"x", "", 1, 2, 0, 0, 0⟩ wdb)).createdAtRecordingId = none ∧
    (todoRowToMsg (createTodoRowOf ⟨"x", "", 1, 2, 0, 0, 0⟩ wdb)).updatedAtRecordingId = none ∧
    GetTodo noFail 6 (CreateTodo noFail ⟨"x", "", 1, 2, 0, 0, 0⟩ wdb).2 =
      (Except.ok (todoRowToMsg (createTodoRowOf ⟨"x", "", 1, 2, 0, 0, 0⟩ wdb)),
        (CreateTodo noFail ⟨"x", "", 1, 2, 0, 0, 0⟩ wdb).2) ∧
    (updateTodoRowOf ⟨5, "x", "", 1, 2, 0, 0⟩ todo5).updatedAtRecordingId = none ∧
    (Plain.updateTodoRowOf ⟨"x", "", "done", 2, 0, 0⟩ todo5).updatedAtRecordingId = none ∧
    (todoRowToMsg (updateTodoRowOf ⟨5, "x", "", 1, 2, 0, 0⟩ todo5)).updatedAtRecordingId
      = none ∧
    GetTodo noFail 5 (UpdateTodo noFail ⟨5, "x", "", 1, 2, 0, 0⟩ wdb).2 =
      (Except.ok (todoRowToMsg (updateTodoRowOf ⟨5, "x", "", 1, 2, 0, 0⟩ todo5)),
        (UpdateTodo noFail ⟨5, "x", "", 1, 2, 0, 0⟩ wdb).2) :=
  ⟨C8_null_recording_refs.2.1 5 (by decide),
   (C8_null_recording_refs.2.2.2.2.1 noFail ⟨"x", "", 1, 2, 0, 0, 0⟩ wdb
      (todoRowToMsg (createTodoRowOf ⟨"x", "", 1, 2, 0, 0, 0⟩ wdb)) (by decide) (by decide)
      (by decide) (by decide)).1,
   (C8_null_recording_refs.2.2.2.2.1 noFail ⟨"x", "", 1, 2, 0, 0, 0⟩ wdb
      (todoRowToMsg (createTodoRowOf ⟨"x", "", 1, 2, 0, 0, 0⟩ wdb)) (by decide) (by decide)
      (by decide) (by decide)).2.1,
   (C8_null_recording_refs.2.2.2.2.1 noFail ⟨"x", "", 1, 2, 0, 0, 0⟩ wdb
      (todoRowToMsg (createTodoRowOf ⟨"x", "", 1, 2, 0, 0, 0⟩ wdb)) (by decide) (by decide)
      (by decide) (by decide)).2.2 noFail (by decide),
   (C8_null_recording_refs.2.2.2.2.2.1 ⟨5, "x", "", 1, 2, 0, 0⟩ todo5).1 (by decide),
   C8_null_recording_refs.2.2.2.2.2.2.1 ⟨"x", "", "done", 2, 0, 0⟩ todo5,
   (C8_null_recording_refs.2.2.2.2.2.2.2 noFail ⟨5, "x", "", 1, 2, 0, 0⟩ wdb
      (todoRowToMsg (updateTodoRowOf ⟨5, "x", "", 1, 2, 0, 0⟩ todo5)) (by decide)
      (by decide)).1,
   (C8_null_recording_refs.2.2.2.2.2.2.2 noFail ⟨5, "x", "", 1, 2, 0, 0⟩ wdb
      (todoRowToMsg (updateTodoRowOf ⟨5, "x", "", 1, 2, 0, 0⟩ todo5)) (by decide)
      (by decide)).2 noFail (by decide)⟩

end Secretary
